import Mathlib

/-
Verification of the unit-of-work transaction lifecycle manager (uow.go).

The Go code is shallowly embedded as state-passing functions.  The manager
state `St` mirrors the `Uow` struct: the nullable transaction handle `Tx`
(here `Option Nat`, a transaction being an opaque handle), the repository
registry (a name-keyed map to factories), and the `sync.Mutex` (a `Bool`
recording whether it is held).  An event trace records every
`BeginTx`/`Commit`/`Rollback` call on the storage and transaction handles,
every factory invocation (with the handle passed to it), and every
lock/unlock of the mutex, so that "exactly once" properties are counts over
the trace.  The storage backend's behaviour is a parameter `Db` giving the
outcome of each primitive.  Go panics (nil-pointer dereference when a nil
factory or nil `Tx` is used; the fatal error from unlocking an unlocked
`sync.Mutex`) are the `.panic` outcome; a `Lock()` on a mutex that is
already held blocks the (single) caller forever, the `.block` outcome.
-/

namespace UowModel

/-- Observable events of one execution: mutex operations, storage/transaction
primitives, and factory invocations (recording the handle handed to the
factory). -/
inductive Event where
  | lockEv : Event
  | unlockEv : Event
  | beginTxEv : Nat → Event
  | commitEv : Nat → Event
  | rollbackEv : Nat → Event
  | factoryEv : String → Nat → Event
deriving DecidableEq

/-- The `Uow` struct of uow.go: `Tx *sql.Tx` (nullable handle),
`Repositories map[string]RepositoryFactory` (a missing key yields Go's nil
factory, modelled by `none`), `mu sync.Mutex` (`locked`), plus the event
trace of the run. -/
structure St where
  tx : Option Nat
  repositories : String → Option (Nat → Nat)
  locked : Bool
  events : List Event

/-- Behaviour of the external storage handle: result of `Db.BeginTx`
(new handle or error message), and of `Commit`/`Rollback` on the open
transaction (`none` = success, `some msg` = failure). -/
structure Db where
  beginTx : Except String Nat
  commitTx : Option String
  rollbackTx : Option String

/-- Outcome of running a piece of the embedded code: normal return with a
value and final state, a runtime panic, or blocking forever on the mutex. -/
inductive Res (α : Type) where
  | ok : α → St → Res α
  | panic : String → St → Res α
  | block : St → Res α

/-- Go's message for a nil-pointer dereference panic. -/
def nilDerefMsg : String := "runtime error: invalid memory address or nil pointer dereference"

/-- Go's fatal error when `sync.Mutex.Unlock` is called on an unlocked mutex. -/
def unlockFatalMsg : String := "sync: unlock of unlocked mutex"

/-- `u.mu.Unlock()`: legal only while the mutex is held; unlocking an
unlocked mutex is a fatal runtime error (`none`). -/
def unlock (s : St) : Option St :=
  match s.locked with
  | true => some { s with locked := false, events := s.events ++ [Event.unlockEv] }
  | false => none

/-- `GetRepository`'s factory invocation `u.Repositories[name](u.Tx)`:
a lookup of an unregistered name yields Go's nil function value, and
calling it panics. -/
def callFactory (name : String) (t : Nat) (s : St) : Res (Option Nat × Option String) :=
  match s.repositories name with
  | none => .panic nilDerefMsg s
  | some f =>
      .ok (some (f t), none) { s with events := s.events ++ [Event.factoryEv name t] }

/-- `func (u *Uow) GetRepository(ctx, name)`: if `u.Tx == nil`, begin a
transaction (returning the begin error on failure), store it; then invoke
the factory registered under `name` on `u.Tx`. -/
def GetRepository (db : Db) (name : String) (s : St) : Res (Option Nat × Option String) :=
  match s.tx with
  | none =>
      match db.beginTx with
      | .error e => .ok (none, some e) s
      | .ok t =>
          callFactory name t
            { s with tx := some t, events := s.events ++ [Event.beginTxEv t] }
  | some t => callFactory name t s

/-- `func (u *Uow) Rollback(res error)`: if `u.Tx == nil`, unlock and return
the "no transaction to rollback" error; else call `u.Tx.Rollback()`; on
failure unlock and return that error; on success clear `u.Tx`, unlock, and
return `res` unchanged. -/
def Rollback (db : Db) (res : Option String) (s : St) : Res (Option String) :=
  match s.tx with
  | none =>
      match unlock s with
      | none => .panic unlockFatalMsg s
      | some s1 => .ok (some "no transaction to rollback") s1
  | some t =>
      let s1 : St := { s with events := s.events ++ [Event.rollbackEv t] }
      match db.rollbackTx with
      | some err =>
          match unlock s1 with
          | none => .panic unlockFatalMsg s1
          | some s2 => .ok (some err) s2
      | none =>
          let s2 : St := { s1 with tx := none }
          match unlock s2 with
          | none => .panic unlockFatalMsg s2
          | some s3 => .ok res s3

/-- `func (u *Uow) CommitOrRollback(res error)`: call `u.Tx.Commit()` (a nil
`u.Tx` dereference panics); on commit failure call `u.Rollback(err)` and, if
it returned non-nil, unlock and return the combined
`"commit error: .., rollback error: .."`, else unlock and return the commit
error; on commit success clear `u.Tx`, unlock, and return `res`. -/
def CommitOrRollback (db : Db) (res : Option String) (s : St) : Res (Option String) :=
  match s.tx with
  | none => .panic nilDerefMsg s
  | some t =>
      let s1 : St := { s with events := s.events ++ [Event.commitEv t] }
      match db.commitTx with
      | some err =>
          match Rollback db (some err) s1 with
          | .panic m s2 => .panic m s2
          | .block s2 => .block s2
          | .ok resp s2 =>
              match resp with
              | some r =>
                  match unlock s2 with
                  | none => .panic unlockFatalMsg s2
                  | some s3 =>
                      .ok (some ("commit error: " ++ err ++ ", rollback error: " ++ r)) s3
              | none =>
                  match unlock s2 with
                  | none => .panic unlockFatalMsg s2
                  | some s3 => .ok (some err) s3
      | none =>
          let s2 : St := { s1 with tx := none }
          match unlock s2 with
          | none => .panic unlockFatalMsg s2
          | some s3 => .ok res s3

/-- `func (u *Uow) Do(ctx, fn)`: `u.mu.Lock()` (blocks forever if the mutex
is already held, since the embedded execution is single-threaded); if
`u.Tx != nil`, return "transaction already started" (without unlocking, as
the source does); begin a transaction, returning the begin error on failure
(again without unlocking); store the handle, run the callback; on a non-nil
callback error delegate to `Rollback`, else to `CommitOrRollback`. -/
def Do (db : Db) (fn : St → Res (Option String)) (s : St) : Res (Option String) :=
  match s.locked with
  | true => .block s
  | false =>
      let s1 : St := { s with locked := true, events := s.events ++ [Event.lockEv] }
      match s1.tx with
      | some _ => .ok (some "transaction already started") s1
      | none =>
          match db.beginTx with
          | .error e => .ok (some e) s1
          | .ok t =>
              let s2 : St := { s1 with tx := some t, events := s1.events ++ [Event.beginTxEv t] }
              match fn s2 with
              | .panic m s3 => .panic m s3
              | .block s3 => .block s3
              | .ok res s3 =>
                  match res with
                  | some _ => Rollback db res s3
                  | none => CommitOrRollback db res s3

/-- `func (u *Uow) Register(name, fc)`: insert or overwrite the mapping. -/
def Register (name : String) (f : Nat → Nat) (s : St) : St :=
  { s with repositories := fun n => if n = name then some f else s.repositories n }

/-- `func (u *Uow) UnRegister(name)`: remove the mapping. -/
def UnRegister (name : String) (s : St) : St :=
  { s with repositories := fun n => if n = name then none else s.repositories n }

/-- Number of `Rollback` calls issued on a transaction handle in a trace. -/
def rollbackCount (evs : List Event) : Nat :=
  (evs.filter fun e => match e with | .rollbackEv _ => true | _ => false).length

/-- Number of `Commit` calls issued on a transaction handle in a trace. -/
def commitCount (evs : List Event) : Nat :=
  (evs.filter fun e => match e with | .commitEv _ => true | _ => false).length

/-- Number of `Db.BeginTx` calls in a trace. -/
def beginCount (evs : List Event) : Nat :=
  (evs.filter fun e => match e with | .beginTxEv _ => true | _ => false).length

/-- Number of mutex `Unlock` calls in a trace. -/
def unlockCount (evs : List Event) : Nat :=
  (evs.filter fun e => match e with | .unlockEv => true | _ => false).length

/-- An idle, unlocked manager with an empty registry and empty trace, as
produced by `NewUow`. -/
def idleSt : St :=
  { tx := none, repositories := fun _ => none, locked := false, events := [] }

/-- A storage backend where every primitive succeeds. -/
def dbAllOk : Db := { beginTx := .ok 1, commitTx := none, rollbackTx := none }

/-- A callback that does nothing and reports success (returns nil). -/
def cbNil : St → Res (Option String) := fun s => .ok none s

/-- A callback that does nothing and returns the business error `m`. -/
def cbErr (m : String) : St → Res (Option String) := fun s => .ok (some m) s

/-- A manager with an open transaction but an unheld lock (the state the code
leaves behind when a rollback attempt fails inside `Do`). -/
def stAlready : St := { idleSt with tx := some 1 }

/-- A manager mid-operation: transaction 1 open, lock held. -/
def stActiveLocked : St := { idleSt with tx := some 1, locked := true }

/-- A manager mid-operation on transaction 2, lock held. -/
def stActiveLocked2 : St := { idleSt with tx := some 2, locked := true }

/-- Storage whose `BeginTx` fails. -/
def dbBeginFail : Db := { dbAllOk with beginTx := .error "bfail" }

/-- Storage whose `Commit` fails (rollback succeeds). -/
def dbCommitFail : Db := { dbAllOk with commitTx := some "cfail" }

/-- Storage whose `Rollback` fails (commit succeeds). -/
def dbRollbackFail : Db := { dbAllOk with rollbackTx := some "rbfail" }

/-- Storage whose `Commit` and `Rollback` both fail. -/
def dbBothFail : Db := { dbAllOk with commitTx := some "cfail", rollbackTx := some "rbfail" }

/-- Returned value of a normally-returning execution, `none` on panic/blocking. -/
def retOf {α : Type} : Res α → Option α
  | .ok r _ => some r
  | _ => none

/-- Final state of an execution, whatever its outcome. -/
def stOf {α : Type} : Res α → St
  | .ok _ s => s
  | .panic _ s => s
  | .block s => s

/-- Panic message of an execution, `none` if it did not panic. -/
def panicMsgOf {α : Type} : Res α → Option String
  | .panic m _ => some m
  | _ => none

/-- Whether the execution blocked forever on the mutex. -/
def isBlocked {α : Type} : Res α → Bool
  | .block _ => true
  | _ => false

/-- A caller performing a sequence of `GetRepository` calls, one per name,
threading the manager state through and collecting the repositories; any
panic or blocking propagates. -/
def runGets (db : Db) (names : List String) (s : St) : Res (List Nat) :=
  match names with
  | [] => .ok [] s
  | n :: rest =>
      match GetRepository db n s with
      | .panic m s1 => .panic m s1
      | .block s1 => .block s1
      | .ok (r, _) s1 =>
          match runGets db rest s1 with
          | .panic m s2 => .panic m s2
          | .block s2 => .block s2
          | .ok rs s2 => .ok (r.getD 0 :: rs) s2

/-- A `Do` callback that resolves every name in `names` through
`GetRepository` and then reports success. -/
def getReposCb (db : Db) (names : List String) : St → Res (Option String) := fun s =>
  match runGets db names s with
  | .ok _ s1 => .ok none s1
  | .panic m s1 => .panic m s1
  | .block s1 => .block s1

end UowModel

namespace UowModel

/-- C1: the claim is the spec's intent and the code violates it.  On both
pre-callback failure paths of `Do` — transaction already active, and
`Db.BeginTx` failure — the source returns without calling `u.mu.Unlock()`,
so the mutex stays held and a subsequent `Do` on the same manager blocks
forever instead of proceeding. -/
theorem do_leaks_lock_on_failed_invocation :
    retOf (Do dbAllOk cbNil stAlready) = some (some "transaction already started") ∧
    (stOf (Do dbAllOk cbNil stAlready)).locked = true ∧
    unlockCount (stOf (Do dbAllOk cbNil stAlready)).events = 0 ∧
    isBlocked (Do dbAllOk cbNil (stOf (Do dbAllOk cbNil stAlready))) = true ∧
    retOf (Do dbBeginFail cbNil idleSt) = some (some "bfail") ∧
    (stOf (Do dbBeginFail cbNil idleSt)).locked = true ∧
    isBlocked (Do dbBeginFail cbNil (stOf (Do dbBeginFail cbNil idleSt))) = true :=
  ⟨rfl, rfl, rfl, rfl, rfl, rfl, rfl⟩

/-- C2: the claim is the spec's intent and the code violates it.  Looking up
an unregistered name yields Go's nil `RepositoryFactory`, which
`GetRepository` immediately invokes: a nil-function call, i.e. a
nil-dereference panic, on both the reuse path and the lazy-begin path —
never a `RepositoryNotFound` error. -/
theorem getRepository_missing_name_panics :
    panicMsgOf (GetRepository dbAllOk "missing" stActiveLocked) = some nilDerefMsg ∧
    panicMsgOf (GetRepository dbAllOk "missing" { idleSt with locked := true }) = some nilDerefMsg :=
  ⟨rfl, rfl⟩

/-- C10: `CommitOrRollback` has no nil guard: whenever the manager is Idle
(`u.Tx == nil`), `u.Tx.Commit()` dereferences the nil handle and panics,
for every storage behaviour and every passthrough error. -/
theorem commitOrRollback_nil_tx_panics (db : Db) (res : Option String) (s : St)
    (h : s.tx = none) : CommitOrRollback db res s = .panic nilDerefMsg s := by
  unfold CommitOrRollback
  rw [h]

/-- Witness for C10 at a concrete Idle manager. -/
theorem commitOrRollback_nil_tx_panics_witness :
    CommitOrRollback dbAllOk none idleSt = .panic nilDerefMsg idleSt :=
  commitOrRollback_nil_tx_panics dbAllOk none idleSt rfl

/-- C3: the claim is the spec's intent and the code violates it.  On the
commit-failure path `Rollback` already releases the lock in every one of its
branches, and `CommitOrRollback` then calls `u.mu.Unlock()` a second time:
unlocking an unlocked mutex, Go's fatal runtime error — the lock is released
twice, not exactly once (the commit-success branch does release it exactly
once). -/
theorem commitOrRollback_double_unlock :
    panicMsgOf (CommitOrRollback dbCommitFail none stActiveLocked) = some unlockFatalMsg ∧
    panicMsgOf (CommitOrRollback dbBothFail none stActiveLocked) = some unlockFatalMsg ∧
    unlockCount (stOf (CommitOrRollback dbCommitFail none stActiveLocked)).events = 1 ∧
    retOf (CommitOrRollback dbAllOk none stActiveLocked) = some none ∧
    unlockCount (stOf (CommitOrRollback dbAllOk none stActiveLocked)).events = 1 :=
  ⟨rfl, rfl, rfl, rfl, rfl⟩

/-- C5: the claim is the spec's intent and the code violates it.  A `Do`
whose callback succeeds but whose commit fails dies in the double unlock of
`CommitOrRollback` instead of returning with the lock released; and a `Do`
whose callback fails and whose rollback attempt also fails returns with the
transaction handle still set (the manager is not Idle), so the subsequent
`Do` fails with "transaction already started" rather than proceeding. -/
theorem do_not_idle_after_completion :
    panicMsgOf (Do dbCommitFail cbNil idleSt) = some unlockFatalMsg ∧
    (stOf (Do dbRollbackFail (cbErr "biz") idleSt)).tx = some 1 ∧
    (stOf (Do dbRollbackFail (cbErr "biz") idleSt)).locked = false ∧
    retOf (Do dbRollbackFail (cbErr "biz")
      (stOf (Do dbRollbackFail (cbErr "biz") idleSt))) = some (some "transaction already started") :=
  ⟨rfl, rfl, rfl, rfl⟩

/-- C6: the claim is the spec's intent and the code violates it.  When commit
fails and the rollback succeeds, `Rollback` passes the non-nil commit error
back through, so `resp != nil` even on rollback success and the code's
`return err` branch (commit failure alone) is unreachable; worse, `Rollback`
has already unlocked the mutex, so the extra `u.mu.Unlock()` on this path is
fatal and neither the commit error nor the combined error is ever returned.
The commit-success half of the claim does hold: the handle is cleared and the
passthrough error is returned unchanged. -/
theorem commitOrRollback_commit_failure_diverges :
    retOf (Rollback dbAllOk (some "cfail") stActiveLocked2) = some (some "cfail") ∧
    panicMsgOf (CommitOrRollback dbCommitFail none stActiveLocked2) = some unlockFatalMsg ∧
    retOf (CommitOrRollback dbAllOk (some "passthrough") stActiveLocked2) =
      some (some "passthrough") ∧
    (stOf (CommitOrRollback dbAllOk (some "passthrough") stActiveLocked2)).tx = none :=
  ⟨rfl, rfl, rfl, rfl⟩

/-- `Rollback` with no open transaction: unlock once, return the
"no transaction to rollback" error (no panic, given the lock is held). -/
theorem rollback_eq_of_tx_none (db : Db) (res : Option String) (s : St)
    (hl : s.locked = true) (ht : s.tx = none) :
    Rollback db res s = .ok (some "no transaction to rollback")
      { s with locked := false, events := s.events ++ [Event.unlockEv] } := by
  unfold Rollback unlock
  rw [ht, hl]

/-- `Rollback` with an open transaction whose `Tx.Rollback()` fails: one
rollback is issued, the lock is released, the rollback error is returned and
the handle is not cleared. -/
theorem rollback_eq_of_rb_fail (db : Db) (res : Option String) (s : St) (t : Nat) (m : String)
    (hl : s.locked = true) (ht : s.tx = some t) (hr : db.rollbackTx = some m) :
    Rollback db res s = .ok (some m)
      { s with
          locked := false
          events := (s.events ++ [Event.rollbackEv t]) ++ [Event.unlockEv] } := by
  unfold Rollback unlock
  rw [ht, hr]
  simp [hl]

/-- `Rollback` with an open transaction whose `Tx.Rollback()` succeeds: one
rollback is issued, the handle is cleared, the lock is released and the
passthrough error is returned unchanged. -/
theorem rollback_eq_of_rb_ok (db : Db) (res : Option String) (s : St) (t : Nat)
    (hl : s.locked = true) (ht : s.tx = some t) (hr : db.rollbackTx = none) :
    Rollback db res s = .ok res
      { s with
          tx := none
          locked := false
          events := (s.events ++ [Event.rollbackEv t]) ++ [Event.unlockEv] } := by
  unfold Rollback unlock
  rw [ht, hr]
  simp [hl]

/-- C7: confirmed.  Called with the lock held (which is what the spec's
"lock released" presupposes and how `Do` always calls it), `Rollback`
returns normally in all three cases: `NoActiveTransaction` without panicking
when no transaction is open; the rollback error when the rollback operation
fails; and the passthrough error unchanged, with the handle cleared, when it
succeeds. -/
theorem rollback_behaviour (db : Db) (res : Option String) (s : St) (hl : s.locked = true) :
    (s.tx = none → Rollback db res s = .ok (some "no transaction to rollback")
      { s with locked := false, events := s.events ++ [Event.unlockEv] }) ∧
    (∀ t m, s.tx = some t → db.rollbackTx = some m → Rollback db res s = .ok (some m)
      { s with
          locked := false
          events := (s.events ++ [Event.rollbackEv t]) ++ [Event.unlockEv] }) ∧
    (∀ t, s.tx = some t → db.rollbackTx = none → Rollback db res s = .ok res
      { s with
          tx := none
          locked := false
          events := (s.events ++ [Event.rollbackEv t]) ++ [Event.unlockEv] }) :=
  ⟨fun ht => rollback_eq_of_tx_none db res s hl ht,
   fun t m ht hr => rollback_eq_of_rb_fail db res s t m hl ht hr,
   fun t ht hr => rollback_eq_of_rb_ok db res s t hl ht hr⟩

/-- `CommitOrRollback` with an open transaction whose `Tx.Commit()` succeeds:
one commit is issued, the handle is cleared, the lock is released and the
passthrough error is returned unchanged. -/
theorem commitOrRollback_eq_of_commit_ok (db : Db) (res : Option String) (s : St) (t : Nat)
    (hl : s.locked = true) (ht : s.tx = some t) (hc : db.commitTx = none) :
    CommitOrRollback db res s = .ok res
      { s with
          tx := none
          locked := false
          events := (s.events ++ [Event.commitEv t]) ++ [Event.unlockEv] } := by
  unfold CommitOrRollback unlock
  rw [ht, hc]
  simp [hl]

theorem rollbackCount_append (l1 l2 : List Event) :
    rollbackCount (l1 ++ l2) = rollbackCount l1 + rollbackCount l2 := by
  simp [rollbackCount, List.filter_append]

theorem commitCount_append (l1 l2 : List Event) :
    commitCount (l1 ++ l2) = commitCount l1 + commitCount l2 := by
  simp [commitCount, List.filter_append]

theorem beginCount_append (l1 l2 : List Event) :
    beginCount (l1 ++ l2) = beginCount l1 + beginCount l2 := by
  simp [beginCount, List.filter_append]

/-- Witness for C7: an Idle manager with the lock held returns
`NoActiveTransaction` and does not panic. -/
theorem rollback_behaviour_witness :
    Rollback dbAllOk none { idleSt with locked := true } =
      .ok (some "no transaction to rollback")
        { { idleSt with locked := true } with
            locked := false
            events := { idleSt with locked := true }.events ++ [Event.unlockEv] } :=
  (rollback_behaviour dbAllOk none { idleSt with locked := true } rfl).1 rfl

/-- C4 counterexample: with a callback returning the business error "biz"
and a storage whose rollback operation fails, `Do` returns the rollback
error "rbfail", not the callback's error unchanged. -/
theorem do_error_rollback_failure_changes_error :
    retOf (Do dbRollbackFail (cbErr "biz") idleSt) = some (some "rbfail") ∧
    (some "rbfail" : Option String) ≠ some "biz" :=
  ⟨rfl, by decide⟩

/-- C4 (amended): for a callback that returns the non-nil error `e` from the
post-begin state `s3` (transaction still open, lock still held, no rollback
issued by the callback itself), `Do` issues exactly one rollback; it returns
`e` unchanged when the rollback succeeds, and the rollback error instead
when the rollback fails. -/
theorem do_error_path (db : Db) (fn : St → Res (Option String)) (s s3 : St)
    (e : String) (t : Nat)
    (hl : s.locked = false) (ht : s.tx = none) (hb : db.beginTx = .ok t)
    (hfn : fn { s with
                  tx := some t
                  locked := true
                  events := (s.events ++ [Event.lockEv]) ++ [Event.beginTxEv t] } =
           .ok (some e) s3)
    (h3t : s3.tx = some t) (h3l : s3.locked = true)
    (hrc : rollbackCount s3.events = rollbackCount s.events) :
    (db.rollbackTx = none → Do db fn s = .ok (some e)
      { s3 with
          tx := none
          locked := false
          events := (s3.events ++ [Event.rollbackEv t]) ++ [Event.unlockEv] }) ∧
    (∀ m, db.rollbackTx = some m → Do db fn s = .ok (some m)
      { s3 with
          locked := false
          events := (s3.events ++ [Event.rollbackEv t]) ++ [Event.unlockEv] }) ∧
    (∀ r s', Do db fn s = .ok r s' →
      rollbackCount s'.events = rollbackCount s.events + 1) := by
  have hDo : Do db fn s = Rollback db (some e) s3 := by
    unfold Do
    rw [hl]
    simp only [ht, hb, hfn]
  refine ⟨?_, ?_, ?_⟩
  · intro hr
    rw [hDo, rollback_eq_of_rb_ok db (some e) s3 t h3l h3t hr]
  · intro m hr
    rw [hDo, rollback_eq_of_rb_fail db (some e) s3 t m h3l h3t hr]
  · intro r s' hok
    cases hr : db.rollbackTx with
    | none =>
        rw [hDo, rollback_eq_of_rb_ok db (some e) s3 t h3l h3t hr] at hok
        cases hok
        simp [rollbackCount_append, hrc]
        rfl
    | some m =>
        rw [hDo, rollback_eq_of_rb_fail db (some e) s3 t m h3l h3t hr] at hok
        cases hok
        simp [rollbackCount_append, hrc]
        rfl

/-- Witness for C4 (amended): a callback returning "biz" with a storage
whose rollback succeeds — `Do` returns "biz" unchanged after the rollback. -/
theorem do_error_path_witness :
    Do dbAllOk (cbErr "biz") idleSt = .ok (some "biz")
      { idleSt with
          tx := none
          locked := false
          events := (((idleSt.events ++ [Event.lockEv]) ++ [Event.beginTxEv 1]) ++
            [Event.rollbackEv 1]) ++ [Event.unlockEv] } :=
  (do_error_path dbAllOk (cbErr "biz") idleSt
    { idleSt with
        tx := some 1
        locked := true
        events := (idleSt.events ++ [Event.lockEv]) ++ [Event.beginTxEv 1] }
    "biz" 1 rfl rfl rfl rfl rfl rfl rfl).1 rfl

/-- C8 counterexample: a callback returning nil whose commit fails — `Do`
does not return null (in this run it dies in the double unlock of
`CommitOrRollback` after issuing the commit and the rollback attempt). -/
theorem do_nil_callback_commit_failure_not_null :
    panicMsgOf (Do dbBothFail cbNil idleSt) = some unlockFatalMsg ∧
    retOf (Do dbBothFail cbNil idleSt) = none :=
  ⟨rfl, rfl⟩

/-- C8 (amended): for a callback that returns nil from the post-begin state
`s3` (transaction still open, lock still held, no commit issued by the
callback itself), when the commit succeeds `Do` issues exactly one commit,
clears the transaction handle (the manager ends Idle with the lock
released) and returns null. -/
theorem do_success_path (db : Db) (fn : St → Res (Option String)) (s s3 : St) (t : Nat)
    (hl : s.locked = false) (ht : s.tx = none) (hb : db.beginTx = .ok t)
    (hfn : fn { s with
                  tx := some t
                  locked := true
                  events := (s.events ++ [Event.lockEv]) ++ [Event.beginTxEv t] } =
           .ok none s3)
    (h3t : s3.tx = some t) (h3l : s3.locked = true)
    (hc : db.commitTx = none)
    (hcc : commitCount s3.events = commitCount s.events) :
    Do db fn s = .ok none
      { s3 with
          tx := none
          locked := false
          events := (s3.events ++ [Event.commitEv t]) ++ [Event.unlockEv] } ∧
    (∀ r s', Do db fn s = .ok r s' →
      commitCount s'.events = commitCount s.events + 1) := by
  have hDo : Do db fn s = CommitOrRollback db none s3 := by
    unfold Do
    rw [hl]
    simp only [ht, hb, hfn]
  have h1 : Do db fn s = .ok none
      { s3 with
          tx := none
          locked := false
          events := (s3.events ++ [Event.commitEv t]) ++ [Event.unlockEv] } := by
    rw [hDo, commitOrRollback_eq_of_commit_ok db none s3 t h3l h3t hc]
  refine ⟨h1, ?_⟩
  intro r s' hok
  rw [h1] at hok
  cases hok
  simp [commitCount_append, hcc]
  rfl

/-- Witness for C8 (amended): the nil callback with an all-succeeding
storage — one commit, manager Idle, `Do` returns null. -/
theorem do_success_path_witness :
    Do dbAllOk cbNil idleSt = .ok none
      { idleSt with
          tx := none
          locked := false
          events := (((idleSt.events ++ [Event.lockEv]) ++ [Event.beginTxEv 1]) ++
            [Event.commitEv 1]) ++ [Event.unlockEv] } :=
  (do_success_path dbAllOk cbNil idleSt
    { idleSt with
        tx := some 1
        locked := true
        events := (idleSt.events ++ [Event.lockEv]) ++ [Event.beginTxEv 1] }
    1 rfl rfl rfl rfl rfl rfl rfl rfl).1

theorem beginCount_factory_map (l : List String) (t : Nat) :
    beginCount (l.map fun n => Event.factoryEv n t) = 0 := by
  induction l with
  | nil => rfl
  | cons a l ih => simp [beginCount, List.filter_cons] at ih ⊢

theorem handle_of_mem_factory_map (l : List String) (t : Nat) (n : String) (u : Nat)
    (h : Event.factoryEv n u ∈ l.map (fun m => Event.factoryEv m t)) : u = t := by
  obtain ⟨m, _, hm⟩ := List.mem_map.mp h
  injection hm with h1 h2
  exact h2.symm

/-- With a transaction already open, a whole sequence of `GetRepository`
calls on registered names issues no `BeginTx` at all and hands the held
handle `t` to every factory: the only events added are the factory
invocations, each on handle `t`. -/
theorem runGets_active (db : Db) (names : List String) :
    ∀ (s : St) (t : Nat), s.tx = some t →
    (∀ n ∈ names, (s.repositories n).isSome = true) →
    ∃ rs, runGets db names s = .ok rs
      { s with events := s.events ++ names.map (fun n => Event.factoryEv n t) } := by
  induction names with
  | nil =>
      intro s t ht _
      exact ⟨[], by simp [runGets]⟩
  | cons n rest ih =>
      intro s t ht hreg
      have hn : (s.repositories n).isSome = true := hreg n (List.mem_cons_self n rest)
      obtain ⟨f, hf⟩ := Option.isSome_iff_exists.mp hn
      have hGR : GetRepository db n s = .ok (some (f t), none)
          { s with events := s.events ++ [Event.factoryEv n t] } := by
        unfold GetRepository callFactory
        rw [ht, hf]
      obtain ⟨rs, hrs⟩ := ih { s with events := s.events ++ [Event.factoryEv n t] } t ht
        (fun m hm => hreg m (List.mem_cons_of_mem n hm))
      refine ⟨(some (f t)).getD 0 :: rs, ?_⟩
      simp only [runGets, hGR, hrs]
      simp [List.append_assoc]

/-- C9: confirmed.  A `Do` whose callback resolves an arbitrary list of
registered names through `GetRepository` produces exactly one `BeginTx`
event in the whole invocation; every factory invocation receives the handle
`t` that the manager already holds; the callback's resolutions themselves
begin nothing (the event trace is exactly lock, begin, the factory calls,
commit, unlock). -/
theorem do_single_begin (db : Db) (names : List String) (s : St) (t : Nat)
    (hl : s.locked = false) (ht : s.tx = none) (he : s.events = [])
    (hb : db.beginTx = .ok t) (hc : db.commitTx = none)
    (hreg : ∀ n ∈ names, (s.repositories n).isSome = true) :
    ∃ s', Do db (getReposCb db names) s = .ok none s' ∧
      s'.events = ([Event.lockEv, Event.beginTxEv t] ++
        names.map (fun n => Event.factoryEv n t)) ++ [Event.commitEv t, Event.unlockEv] ∧
      beginCount s'.events = 1 ∧
      ∀ n u, Event.factoryEv n u ∈ s'.events → u = t := by
  obtain ⟨rs, hrs⟩ := runGets_active db names
    { s with
        tx := some t
        locked := true
        events := (s.events ++ [Event.lockEv]) ++ [Event.beginTxEv t] } t rfl
    (fun m hm => hreg m hm)
  have hcb : getReposCb db names
      { s with
          tx := some t
          locked := true
          events := (s.events ++ [Event.lockEv]) ++ [Event.beginTxEv t] } =
      .ok none
        { s with
            tx := some t
            locked := true
            events := ((s.events ++ [Event.lockEv]) ++ [Event.beginTxEv t]) ++
              names.map (fun n => Event.factoryEv n t) } := by
    simp only [getReposCb, hrs]
  have hDo : Do db (getReposCb db names) s = .ok none
      { s with
          tx := none
          locked := false
          events := ((((s.events ++ [Event.lockEv]) ++ [Event.beginTxEv t]) ++
            names.map (fun n => Event.factoryEv n t)) ++ [Event.commitEv t]) ++
            [Event.unlockEv] } := by
    have hstep : Do db (getReposCb db names) s = CommitOrRollback db none
        { s with
            tx := some t
            locked := true
            events := ((s.events ++ [Event.lockEv]) ++ [Event.beginTxEv t]) ++
              names.map (fun n => Event.factoryEv n t) } := by
      unfold Do
      rw [hl]
      simp only [ht, hb, hcb]
    rw [hstep, commitOrRollback_eq_of_commit_ok db none _ t rfl rfl hc]
  refine ⟨_, hDo, ?_, ?_, ?_⟩
  · simp [he, List.append_assoc]
  · simp [he, beginCount_append, beginCount_factory_map, beginCount]
  · intro n u hu
    rcases List.mem_append.mp hu with hu | hu
    · rcases List.mem_append.mp hu with hu | hu
      · rcases List.mem_append.mp hu with hu | hu
        · rcases List.mem_append.mp hu with hu | hu
          · rcases List.mem_append.mp hu with hu | hu
            · rw [he] at hu
              simp at hu
            · simp at hu
          · simp at hu
        · exact handle_of_mem_factory_map names t n u hu
      · simp at hu
    · simp at hu

/-- Witness for C9: two registered names resolved three times inside one
`Do` — a single `BeginTx`, and every factory receives handle 1. -/
theorem do_single_begin_witness :
    ∃ s', Do dbAllOk (getReposCb dbAllOk ["users", "orders", "users"])
        (Register "orders" (fun x => x + 1) (Register "users" (fun x => x) idleSt)) =
        .ok none s' ∧
      s'.events = ([Event.lockEv, Event.beginTxEv 1] ++
        (["users", "orders", "users"].map (fun n => Event.factoryEv n 1))) ++
        [Event.commitEv 1, Event.unlockEv] ∧
      beginCount s'.events = 1 ∧
      ∀ n u, Event.factoryEv n u ∈ s'.events → u = 1 :=
  do_single_begin dbAllOk ["users", "orders", "users"]
    (Register "orders" (fun x => x + 1) (Register "users" (fun x => x) idleSt))
    1 rfl rfl rfl rfl rfl (by decide)

end UowModel
